import Mathlib

/-!
Shallow embedding of the encounter/capture resolution state machine of
`src/pokemonrng/RNG.js` (a browser Pokédex RNG simulator).

The embedding mirrors the JavaScript source:
* `Ball` — the three capture-item types offered by the ball selector
  (`pokeball` is the unlimited type, stored as the sentinel `-1`).
* `Inventory` — the module-level `inventory` object (`Int` counts, since the
  unlimited sentinel is `-1`).
* `Record` — one entry of the `pokedex` object (`{id,name,types,caught,
  is_legendary,sprite,capturedAt,shiny}`), `capturedAt : Option Nat` standing
  for the nullable ISO timestamp.
* `GameState` — the module-level mutable state touched by `tryCatch` /
  `runAway`: the `pokedex` map (as an association list keyed by id), the
  `inventory`, `captureCounter`, `currentEncounter`, the `isProcessing` guard,
  the two persisted snapshots written by `save()` / `saveInventory()`, the
  toast messages shown, and a counter of chained `encounterRandom()` requests.
* Probabilities are exact rationals; the JS uniform draw `Math.random()`
  becomes an explicit `draw : ℚ` argument, and the wall clock an explicit
  `now : Nat`.

DOM rendering, animation timing and the storage-quota fallbacks of `save()`
are presentation/storage plumbing with no bearing on the claims and are not
modelled; `save()` / `saveInventory()` are modelled as writing the persisted
snapshot fields.
-/

namespace RNG

/-- The three ball kinds of the `ball-select` control:
`{ pokeball:1.0, greatball:1.5, ultraball:2.2 }`. -/
inductive Ball where
  | pokeball
  | greatball
  | ultraball
deriving DecidableEq, Repr

/-- Source: `let inventory = { pokeball:-1, greatball:2, ultraball:1 }` — counts are
JS numbers; `-1` on `pokeball` is the infinite sentinel (RNG.js line 42-43). -/
structure Inventory where
  pokeball : Int
  greatball : Int
  ultraball : Int
deriving DecidableEq, Repr

/-- Lookup `inventory[ball]` — field access by ball name. -/
def Inventory.get (inv : Inventory) : Ball → Int
  | .pokeball => inv.pokeball
  | .greatball => inv.greatball
  | .ultraball => inv.ultraball

/-- Source: `inventory[ball] = Math.max(0,(inventory[ball]||0)-1)` (RNG.js line 407),
written per field. -/
def Inventory.decr (inv : Inventory) : Ball → Inventory
  | .pokeball => { inv with pokeball := max 0 (inv.pokeball - 1) }
  | .greatball => { inv with greatball := max 0 (inv.greatball - 1) }
  | .ultraball => { inv with ultraball := max 0 (inv.ultraball - 1) }

/-- One entry of the `pokedex` object:
`{id,name,caught,types,is_legendary,sprite,capturedAt,shiny}` (RNG.js 41, 430). -/
structure Record where
  id : Nat
  name : String
  types : List String
  caught : Bool
  is_legendary : Bool
  sprite : Option String
  capturedAt : Option Nat
  shiny : Bool
deriving DecidableEq, Repr

/-- Source: `currentEncounter = { id, name, sprite, types, shiny, is_legendary }`
(RNG.js line 333). -/
structure Encounter where
  id : Nat
  name : String
  sprite : Option String
  types : List String
  shiny : Bool
  is_legendary : Bool
deriving DecidableEq, Repr

/-- The pokedex map `{id: record}`, as an association list keyed by id. -/
abbrev Dex := List (Nat × Record)

/-- Lookup `pokedex[id]` — map access by id. -/
def dexGet : Dex → Nat → Option Record
  | [], _ => none
  | p :: rest, id => if p.1 = id then some p.2 else dexGet rest id

/-- Assignment `pokedex[id] = r` — map update (insert or overwrite). -/
def dexSet : Dex → Nat → Record → Dex
  | [], id, r => [(id, r)]
  | p :: rest, id, r => if p.1 = id then (id, r) :: rest else p :: dexSet rest id r

/-- Source: `pokedex[id] && pokedex[id].caught` — whether this creature is already
marked caught (absent record counts as not caught). -/
def dexCaught (dex : Dex) (id : Nat) : Bool :=
  match dexGet dex id with
  | some r => r.caught
  | none => false

/-- The module-level mutable state read and written by `tryCatch`/`runAway`,
plus the persisted snapshots and observable effects:
* `storedDex` — what `save()` last wrote under `pokedex_v1`;
* `storedInv` — what `saveInventory()` last wrote under `pokedex_v1_inv`
  (the payload is `{ inventory, captureCounter }`);
* `toasts` — the `setToast` messages, in order;
* `encounterRequests` — how many chained `encounterRandom()` calls were made. -/
structure GameState where
  pokedex : Dex
  inventory : Inventory
  captureCounter : Nat
  currentEncounter : Option Encounter
  isProcessing : Bool
  storedDex : Option Dex
  storedInv : Option (Inventory × Nat)
  toasts : List String
  encounterRequests : Nat
deriving DecidableEq, Repr

/-- Effect of `setToast(msg)` — record the user-visible message. -/
def setToast (s : GameState) (msg : String) : GameState :=
  { s with toasts := s.toasts ++ [msg] }

/-- Effect of `save()` — persist the pokedex (RNG.js line 136-138; quota fallbacks not
modelled). -/
def saveDex (s : GameState) : GameState :=
  { s with storedDex := some s.pokedex }

/-- Effect of `saveInventory()` — persist `{ inventory, captureCounter }`
(RNG.js line 165-168). -/
def saveInventory (s : GameState) : GameState :=
  { s with storedInv := some (s.inventory, s.captureCounter) }

/-- Source: `capitalize(s)` = `s.charAt(0).toUpperCase()+s.slice(1)` (RNG.js 555). -/
def capitalize (s : String) : String :=
  match s.data with
  | [] => ""
  | c :: cs => String.mk (c.toUpper :: cs)

/-- The `Math.min` function on exact rationals. -/
def jsMin (a b : ℚ) : ℚ := if a ≤ b then a else b

/-- Source: `{ pokeball:1.0, greatball:1.5, ultraball:2.2 }[ball] || 1.0`
(RNG.js line 395). -/
def ballBonus : Ball → ℚ
  | .pokeball => 1.0
  | .greatball => 1.5
  | .ultraball => 2.2

/-- The capture chance computed by `tryCatch` (RNG.js lines 396-402):
base `0.35`; a shiny legendary encounter forces `1.0`; otherwise
`Math.min(0.98, base * ballBonus + (alreadyCaught ? -0.1 : 0))`. -/
def computeChance (ball : Ball) (enc : Encounter) (dex : Dex) : ℚ :=
  if enc.shiny && enc.is_legendary then 1.0
  else jsMin 0.98 (0.35 * ballBonus ball + (if dexCaught dex enc.id then -0.1 else 0))

/-- The ball-consumption step of `tryCatch` (RNG.js lines 404-412):
`pokeball` is never consumed (`-1` means infinite); for the other two types a
zero (or smaller) count aborts (`none`), otherwise the count is decremented
and the inventory persisted. -/
def tryConsume (ball : Ball) (s : GameState) : Option GameState :=
  match ball with
  | .pokeball => some s
  | _ =>
    if s.inventory.get ball ≤ 0 then none
    else some (saveInventory { s with inventory := s.inventory.decr ball })

/-- The fresh record created on capture when the id was never observed
(RNG.js line 430): `{ id, name, types, caught:false, is_legendary:false,
sprite, capturedAt: null, shiny: false }`. -/
def newRecord (enc : Encounter) : Record :=
  { id := enc.id, name := enc.name, types := enc.types, caught := false,
    is_legendary := false, sprite := enc.sprite, capturedAt := none,
    shiny := false }

/-- The success branch of the `tryCatch` resolution (RNG.js lines 428-444):
upsert the record, mark it caught, keep an existing sprite (`||` fallback to
the encounter sprite), set `capturedAt` only when previously null, persist the
pokedex, show the toast, clear the encounter, and on a first-ever capture bump
`captureCounter` and grant the every-10th / every-100th ball bonuses before
persisting the inventory. -/
def finalizeCapture (now : Nat) (enc : Encounter) (s : GameState) : GameState :=
  let id := enc.id
  let rec0 := (dexGet s.pokedex id).getD (newRecord enc)
  let firstCapture := !rec0.caught
  let rec1 := { rec0 with
    caught := true,
    sprite := match rec0.sprite with | some sp => some sp | none => enc.sprite,
    capturedAt := match rec0.capturedAt with | some t => some t | none => some now }
  let s1 := setToast (saveDex { s with pokedex := dexSet s.pokedex id rec1 })
    (enc.name ++ " capturado!")
  let s2 := { s1 with currentEncounter := none }
  if firstCapture then
    let c := s2.captureCounter + 1
    let s3 := { s2 with captureCounter := c }
    let s4 :=
      if c % 10 = 0 then
        setToast
          { s3 with inventory := { s3.inventory with greatball := s3.inventory.greatball + 1 } }
          "Bonus: you gained 1 Great Ball!"
      else s3
    let s5 :=
      if c % 100 = 0 then
        setToast
          { s4 with inventory := { s4.inventory with ultraball := s4.inventory.ultraball + 1 } }
          "Big bonus: you gained 1 Ultra Ball!"
      else s4
    saveInventory s5
  else s2

/-- The escape toast of RNG.js lines 479 and 487: capitalize the name (with
fallback Pokémon when empty) and append the escaped-after-break sentence. -/
def escapeMsg (enc : Encounter) : String :=
  capitalize (if enc.name = "" then "Pokémon" else enc.name)
    ++ " escaped after the Pokéball broke!"

/-- The deferred resolution of `tryCatch` (RNG.js lines 418-507): compare the
uniform draw against the chance; on success finalize the capture, on failure
toast the escape message and clear the encounter; both outcomes clear the
`isProcessing` guard and chain one `encounterRandom()` request.  Were the
encounter already gone, reading `currentEncounter.id` would throw and the
surrounding catch block only clears the guard (lines 501-506). -/
def tryCatchResolve (draw chance : ℚ) (now : Nat) (s : GameState) : GameState :=
  match s.currentEncounter with
  | none => { s with isProcessing := false }
  | some enc =>
    if draw < chance then
      let s1 := finalizeCapture now enc s
      { s1 with isProcessing := false, encounterRequests := s1.encounterRequests + 1 }
    else
      let s1 := setToast s (escapeMsg enc)
      { s1 with currentEncounter := none, isProcessing := false,
                encounterRequests := s1.encounterRequests + 1 }

/-- Source: `tryCatch()` (RNG.js lines 388-508), with the `Math.random()` draw and the
wall clock passed explicitly.  Guard: a no-op while `isProcessing`, a toast
when no encounter is active; then `startProcessing()`, the chance computation,
the ball consumption (abort on empty), and the resolution. -/
def tryCatch (ball : Ball) (draw : ℚ) (now : Nat) (s : GameState) : GameState :=
  if s.isProcessing then s
  else
    match s.currentEncounter with
    | none => setToast s "Nenhum Pokémon encontrado"
    | some enc =>
      let s1 := { s with isProcessing := true }
      let chance := computeChance ball enc s.pokedex
      match tryConsume ball s1 with
      | none => setToast { s1 with isProcessing := false } "Sem bolas desse tipo!"
      | some s2 => tryCatchResolve draw chance now s2

/-- Source: `runAway()` (RNG.js lines 510-530): same guards as `tryCatch`, no store
mutation, clears the encounter and chains one `encounterRandom()` request. -/
def runAway (s : GameState) : GameState :=
  if s.isProcessing then s
  else
    match s.currentEncounter with
    | none => setToast s "Nenhum Pokémon encontrado"
    | some enc =>
      let nm := capitalize (if enc.name = "" then "Pokémon" else enc.name)
      let s1 := setToast { s with isProcessing := true } (nm ++ " fled the battle")
      { s1 with currentEncounter := none, isProcessing := false,
                encounterRequests := s1.encounterRequests + 1 }

/-- The state after a successful consumption: untouched for the infinite
default ball, otherwise the decremented and persisted inventory. -/
def availConsume (ball : Ball) (s : GameState) : GameState :=
  if ball = Ball.pokeball then s
  else saveInventory { s with inventory := s.inventory.decr ball }

/-- The record written by a successful capture. -/
def capRecord (now : Nat) (enc : Encounter) (dex : Dex) : Record :=
  let rec0 := (dexGet dex enc.id).getD (newRecord enc)
  { rec0 with
    caught := true,
    sprite := match rec0.sprite with | some sp => some sp | none => enc.sprite,
    capturedAt := match rec0.capturedAt with | some t => some t | none => some now }

/-- The inventory invariant of the spec: the finite item-type counts are
never negative. -/
def invNonneg (inv : Inventory) : Prop :=
  0 ≤ inv.greatball ∧ 0 ≤ inv.ultraball

/-- A user action hitting the capture resolver: a capture attempt (with its
ball choice, uniform draw and timestamp) or a flee. -/
inductive Action where
  | capture (ball : Ball) (draw : ℚ) (now : Nat)
  | flee
deriving Repr

/-- One resolver step. -/
def step (a : Action) (s : GameState) : GameState :=
  match a with
  | .capture ball draw now => tryCatch ball draw now s
  | .flee => runAway s

/-- A sequence of resolver steps. -/
def runActions (acts : List Action) (s : GameState) : GameState :=
  match acts with
  | [] => s
  | a :: rest => runActions rest (step a s)

/-! ### The import operation, at the JSON level

`importPokedex()` (RNG.js lines 539-550) reads the chosen file and runs
`JSON.parse` on it: on a parse error it only toasts the invalid-file notice;
on success it assigns the parsed value to `pokedex` **without any shape
validation** and persists it.  Since the assigned value is whatever JSON the
file held, this part is modelled at the JSON level: the store holds a `Json`
value and the input is the outcome of `JSON.parse` (`none` = malformed input
that fails to parse). -/

/-- A JSON value, as produced by `JSON.parse`. -/
inductive Json where
  | jnull
  | jbool (b : Bool)
  | jnum (n : Int)
  | jstr (s : String)
  | jarr (elems : List Json)
  | jobj (fields : List (String × Json))

/-- Whether a JSON value is an object (the only shape a `{id: record}`
collection store can have). -/
def Json.isObj : Json → Bool
  | .jobj _ => true
  | _ => false

/-- The state touched by `importPokedex`: the `pokedex` variable (as the raw
JSON value it holds after an import), the persisted snapshot, the toasts. -/
structure ImportEnv where
  pokedexJson : Json
  storedJson : Option Json
  toasts : List String

/-- Source: `importPokedex()` (RNG.js lines 539-550) after the file has been
read: parse the text, assign the parsed value to the pokedex, persist it and
toast the imported notice; on a parse error, toast the invalid-file notice. -/
def importPokedex (parsed : Option Json) (s : ImportEnv) : ImportEnv :=
  match parsed with
  | some data =>
    { pokedexJson := data, storedJson := some data,
      toasts := s.toasts ++ ["Pokédex importada"] }
  | none => { s with toasts := s.toasts ++ ["Arquivo inválido"] }

/-! ### Concrete fixtures (used by witness theorems) -/

/-- A plain (non-shiny, non-legendary) encounter. -/
def encPlain : Encounter :=
  { id := 1, name := "bulbasaur", sprite := some "spriteA", types := ["grass"],
    shiny := false, is_legendary := false }

/-- A shiny legendary encounter. -/
def encShinyLeg : Encounter :=
  { id := 144, name := "articuno", sprite := some "spriteB", types := ["ice"],
    shiny := true, is_legendary := true }

/-- An already-caught record for id 1, captured at time 111. -/
def recCaught1 : Record :=
  { id := 1, name := "bulbasaur", types := ["grass"], caught := true,
    is_legendary := false, sprite := some "spriteA", capturedAt := some 111,
    shiny := false }

/-- The starting state: default inventory, empty pokedex, a plain encounter
active, idle. -/
def gs0 : GameState :=
  { pokedex := [], inventory := { pokeball := -1, greatball := 2, ultraball := 1 },
    captureCounter := 0, currentEncounter := some encPlain, isProcessing := false,
    storedDex := none, storedInv := none, toasts := [], encounterRequests := 0 }

/-- Nine first-captures already made. -/
def gs9 : GameState := { gs0 with captureCounter := 9 }

/-- Ninety-nine first-captures already made. -/
def gs99 : GameState := { gs0 with captureCounter := 99 }

/-- A shiny legendary encounter active. -/
def gsSL : GameState := { gs0 with currentEncounter := some encShinyLeg }

/-- No finite balls left. -/
def gsNoGreat : GameState :=
  { gs0 with inventory := { pokeball := -1, greatball := 0, ultraball := 0 } }

/-- Id 1 already caught (with its capture timestamp set). -/
def gsCaught1 : GameState := { gs0 with pokedex := [(1, recCaught1)] }

/-- A resolution in flight. -/
def gsBusy : GameState := { gs0 with isProcessing := true }

/-- A small action sequence: catch with a great ball, flee, catch with an
ultra ball. -/
def actsW : List Action :=
  [Action.capture Ball.greatball 0 7, Action.flee,
   Action.capture Ball.ultraball (1/2) 9]

/-! ### Helper lemmas -/

/-- The function `jsMin` is the lattice `min` on `ℚ`. -/
theorem jsMin_eq_min (a b : ℚ) : jsMin a b = min a b := by
  rw [jsMin, min_def]

/-- Looking up the key just written. -/
theorem dexGet_dexSet_self (dex : Dex) (id : Nat) (r : Record) :
    dexGet (dexSet dex id r) id = some r := by
  induction dex with
  | nil => simp [dexGet, dexSet]
  | cons p rest ih =>
    by_cases h : p.1 = id <;> simp [dexGet, dexSet, h, ih]

/-- Writing one key leaves every other key unchanged. -/
theorem dexGet_dexSet_ne (dex : Dex) (id j : Nat) (r : Record) (h : j ≠ id) :
    dexGet (dexSet dex id r) j = dexGet dex j := by
  induction dex with
  | nil =>
    have hij : ¬ (id = j) := fun hc => h hc.symm
    simp [dexGet, dexSet, hij]
  | cons p rest ih =>
    by_cases hp : p.1 = id
    · have hij : ¬ (id = j) := fun hc => h hc.symm
      have hpj : ¬ (p.1 = j) := by rw [hp]; exact hij
      simp [dexGet, dexSet, hp, hij, hpj]
    · by_cases hj : p.1 = j <;> simp [dexGet, dexSet, hp, hj, h, ih]

theorem availConsume_pokedex (ball : Ball) (s : GameState) :
    (availConsume ball s).pokedex = s.pokedex := by
  unfold availConsume saveInventory; split <;> rfl

theorem availConsume_currentEncounter (ball : Ball) (s : GameState) :
    (availConsume ball s).currentEncounter = s.currentEncounter := by
  unfold availConsume saveInventory; split <;> rfl

theorem availConsume_captureCounter (ball : Ball) (s : GameState) :
    (availConsume ball s).captureCounter = s.captureCounter := by
  unfold availConsume saveInventory; split <;> rfl

theorem availConsume_isProcessing (ball : Ball) (s : GameState) :
    (availConsume ball s).isProcessing = s.isProcessing := by
  unfold availConsume saveInventory; split <;> rfl

theorem availConsume_toasts (ball : Ball) (s : GameState) :
    (availConsume ball s).toasts = s.toasts := by
  unfold availConsume saveInventory; split <;> rfl

theorem availConsume_storedDex (ball : Ball) (s : GameState) :
    (availConsume ball s).storedDex = s.storedDex := by
  unfold availConsume saveInventory; split <;> rfl

theorem availConsume_encounterRequests (ball : Ball) (s : GameState) :
    (availConsume ball s).encounterRequests = s.encounterRequests := by
  unfold availConsume saveInventory; split <;> rfl

theorem availConsume_inventory (ball : Ball) (s : GameState) :
    (availConsume ball s).inventory =
      if ball = Ball.pokeball then s.inventory else s.inventory.decr ball := by
  unfold availConsume saveInventory; split <;> rfl

theorem availConsume_storedInv (ball : Ball) (s : GameState) :
    (availConsume ball s).storedInv =
      if ball = Ball.pokeball then s.storedInv
      else some (s.inventory.decr ball, s.captureCounter) := by
  unfold availConsume saveInventory; split <;> rfl

/-- Under the `Idle`-with-encounter guard and an available ball, `tryCatch` is
the consumption followed by the resolution. -/
theorem tryCatch_eq_resolve (s : GameState) (e : Encounter) (ball : Ball)
    (draw : ℚ) (now : Nat)
    (hp : s.isProcessing = false) (he : s.currentEncounter = some e)
    (hb : ball = Ball.pokeball ∨ 0 < s.inventory.get ball) :
    tryCatch ball draw now s =
      tryCatchResolve draw (computeChance ball e s.pokedex) now
        (availConsume ball { s with isProcessing := true }) := by
  unfold tryCatch
  rw [hp, he]
  rcases hb with rfl | hpos
  · simp [tryConsume, availConsume]
  · cases ball with
    | pokeball => simp [tryConsume, availConsume]
    | greatball =>
      have hgt : 0 < s.inventory.greatball := by simpa [Inventory.get] using hpos
      simp [tryConsume, availConsume, Inventory.get, not_le.mpr hgt]
    | ultraball =>
      have hgt : 0 < s.inventory.ultraball := by simpa [Inventory.get] using hpos
      simp [tryConsume, availConsume, Inventory.get, not_le.mpr hgt]

theorem finalizeCapture_pokedex (now : Nat) (enc : Encounter) (s : GameState) :
    (finalizeCapture now enc s).pokedex =
      dexSet s.pokedex enc.id (capRecord now enc s.pokedex) := by
  unfold finalizeCapture capRecord setToast saveDex saveInventory
  dsimp only
  split
  · split <;> split <;> rfl
  · rfl

theorem finalizeCapture_caught (now : Nat) (enc : Encounter) (s : GameState) :
    dexCaught (finalizeCapture now enc s).pokedex enc.id = true := by
  rw [dexCaught, finalizeCapture_pokedex, dexGet_dexSet_self]
  rfl

theorem finalizeCapture_pokedex_ne (now : Nat) (enc : Encounter) (s : GameState)
    (j : Nat) (h : j ≠ enc.id) :
    dexGet (finalizeCapture now enc s).pokedex j = dexGet s.pokedex j := by
  rw [finalizeCapture_pokedex, dexGet_dexSet_ne _ _ _ _ h]

theorem finalizeCapture_capturedAt (now : Nat) (enc : Encounter) (s : GameState) :
    Option.bind (dexGet (finalizeCapture now enc s).pokedex enc.id) (fun r => r.capturedAt) =
      some ((Option.bind (dexGet s.pokedex enc.id) (fun r => r.capturedAt)).getD now) := by
  rw [finalizeCapture_pokedex, dexGet_dexSet_self]
  cases hx : dexGet s.pokedex enc.id with
  | none => simp [capRecord, hx, newRecord]
  | some r => cases hc : r.capturedAt <;> simp [capRecord, hx, hc]

theorem finalizeCapture_currentEncounter (now : Nat) (enc : Encounter) (s : GameState) :
    (finalizeCapture now enc s).currentEncounter = none := by
  unfold finalizeCapture setToast saveDex saveInventory
  dsimp only
  repeat' split
  all_goals rfl

theorem finalizeCapture_isProcessing (now : Nat) (enc : Encounter) (s : GameState) :
    (finalizeCapture now enc s).isProcessing = s.isProcessing := by
  unfold finalizeCapture setToast saveDex saveInventory
  dsimp only
  repeat' split
  all_goals rfl

theorem finalizeCapture_encounterRequests (now : Nat) (enc : Encounter) (s : GameState) :
    (finalizeCapture now enc s).encounterRequests = s.encounterRequests := by
  unfold finalizeCapture setToast saveDex saveInventory
  dsimp only
  repeat' split
  all_goals rfl

theorem finalizeCapture_pokeballInv (now : Nat) (enc : Encounter) (s : GameState) :
    (finalizeCapture now enc s).inventory.pokeball = s.inventory.pokeball := by
  unfold finalizeCapture setToast saveDex saveInventory
  dsimp only
  repeat' split
  all_goals rfl

/-- The prior caught flag equals the caught field of the upsert default. -/
theorem dexCaught_eq_getD (enc : Encounter) (dex : Dex) :
    dexCaught dex enc.id = ((dexGet dex enc.id).getD (newRecord enc)).caught := by
  cases hx : dexGet dex enc.id <;> simp [dexCaught, hx, newRecord]

theorem finalizeCapture_captureCounter (now : Nat) (enc : Encounter) (s : GameState) :
    (finalizeCapture now enc s).captureCounter =
      if dexCaught s.pokedex enc.id then s.captureCounter else s.captureCounter + 1 := by
  rw [dexCaught_eq_getD enc s.pokedex]
  unfold finalizeCapture setToast saveDex saveInventory
  dsimp only
  repeat' split
  all_goals simp_all

theorem finalizeCapture_greatball (now : Nat) (enc : Encounter) (s : GameState) :
    (finalizeCapture now enc s).inventory.greatball =
      if dexCaught s.pokedex enc.id = false ∧ (s.captureCounter + 1) % 10 = 0
      then s.inventory.greatball + 1 else s.inventory.greatball := by
  rw [dexCaught_eq_getD enc s.pokedex]
  unfold finalizeCapture setToast saveDex saveInventory
  dsimp only
  repeat' split
  all_goals simp_all

theorem finalizeCapture_ultraball (now : Nat) (enc : Encounter) (s : GameState) :
    (finalizeCapture now enc s).inventory.ultraball =
      if dexCaught s.pokedex enc.id = false ∧ (s.captureCounter + 1) % 100 = 0
      then s.inventory.ultraball + 1 else s.inventory.ultraball := by
  rw [dexCaught_eq_getD enc s.pokedex]
  unfold finalizeCapture setToast saveDex saveInventory
  dsimp only
  repeat' split
  all_goals simp_all

theorem finalizeCapture_storedInv (now : Nat) (enc : Encounter) (s : GameState) :
    (finalizeCapture now enc s).storedInv =
      if dexCaught s.pokedex enc.id then s.storedInv
      else some ((finalizeCapture now enc s).inventory, s.captureCounter + 1) := by
  rw [dexCaught_eq_getD enc s.pokedex]
  unfold finalizeCapture setToast saveDex saveInventory
  dsimp only
  repeat' split
  all_goals simp_all

theorem finalizeCapture_storedDex (now : Nat) (enc : Encounter) (s : GameState) :
    (finalizeCapture now enc s).storedDex = some (finalizeCapture now enc s).pokedex := by
  unfold finalizeCapture setToast saveDex saveInventory
  dsimp only
  repeat' split
  all_goals rfl

/-- Resolution of a successful draw, given an active encounter. -/
theorem tryCatchResolve_success (draw chance : ℚ) (now : Nat) (s : GameState)
    (e : Encounter) (he : s.currentEncounter = some e) (h : draw < chance) :
    tryCatchResolve draw chance now s =
      { finalizeCapture now e s with
        isProcessing := false,
        encounterRequests := (finalizeCapture now e s).encounterRequests + 1 } := by
  unfold tryCatchResolve
  rw [he]
  simp [h]

/-- Resolution of a failed draw, given an active encounter. -/
theorem tryCatchResolve_failure (draw chance : ℚ) (now : Nat) (s : GameState)
    (e : Encounter) (he : s.currentEncounter = some e) (h : ¬ draw < chance) :
    tryCatchResolve draw chance now s =
      { s with
        toasts := s.toasts ++ [escapeMsg e],
        currentEncounter := none,
        isProcessing := false,
        encounterRequests := s.encounterRequests + 1 } := by
  unfold tryCatchResolve
  rw [he]
  simp [h, setToast]

/-- While a resolution is in flight, `tryCatch` is a no-op. -/
theorem tryCatch_noop_of_processing (ball : Ball) (draw : ℚ) (now : Nat)
    (s : GameState) (hp : s.isProcessing = true) :
    tryCatch ball draw now s = s := by
  unfold tryCatch
  simp [hp]

/-- While a resolution is in flight, `runAway` is a no-op. -/
theorem runAway_noop_of_processing (s : GameState) (hp : s.isProcessing = true) :
    runAway s = s := by
  unfold runAway
  simp [hp]

/-- The full effect of `runAway` from `Idle` with an active encounter. -/
theorem runAway_eq (s : GameState) (e : Encounter)
    (hp : s.isProcessing = false) (he : s.currentEncounter = some e) :
    runAway s =
      { s with
        toasts := s.toasts ++
          [capitalize (if e.name = "" then "Pokémon" else e.name) ++ " fled the battle"],
        currentEncounter := none,
        encounterRequests := s.encounterRequests + 1 } := by
  cases s with
  | mk pd inv cc ce ip sd si ts er =>
    dsimp at hp he
    subst hp
    subst he
    simp [runAway, setToast]

theorem runAway_inventory (s : GameState) : (runAway s).inventory = s.inventory := by
  unfold runAway setToast
  repeat' split
  all_goals rfl

theorem tryCatchResolve_pokeballInv (draw chance : ℚ) (now : Nat) (s : GameState) :
    (tryCatchResolve draw chance now s).inventory.pokeball = s.inventory.pokeball := by
  unfold tryCatchResolve
  repeat' split
  all_goals simp [finalizeCapture_pokeballInv, setToast]

theorem tryCatchResolve_invNonneg (draw chance : ℚ) (now : Nat) (s : GameState)
    (h : invNonneg s.inventory) :
    invNonneg (tryCatchResolve draw chance now s).inventory := by
  unfold tryCatchResolve
  repeat' split
  · exact h
  · dsimp only
    obtain ⟨h1, h2⟩ := h
    constructor
    · rw [finalizeCapture_greatball]
      split <;> omega
    · rw [finalizeCapture_ultraball]
      split <;> omega
  · exact h

theorem decr_invNonneg (inv : Inventory) (ball : Ball) (h : invNonneg inv) :
    invNonneg (inv.decr ball) := by
  obtain ⟨h1, h2⟩ := h
  cases ball <;> constructor <;> simp [Inventory.decr] <;> omega

/-- One `tryCatch` step keeps the finite counts nonnegative and never touches
the infinite default count. -/
theorem tryCatch_invNonneg (ball : Ball) (draw : ℚ) (now : Nat) (s : GameState)
    (h : invNonneg s.inventory) :
    invNonneg (tryCatch ball draw now s).inventory ∧
      (tryCatch ball draw now s).inventory.pokeball = s.inventory.pokeball := by
  unfold tryCatch
  split
  · exact ⟨h, rfl⟩
  · split
    · exact ⟨h, rfl⟩
    · cases ball with
      | pokeball =>
        dsimp only [tryConsume]
        refine ⟨tryCatchResolve_invNonneg _ _ _ _ h, ?_⟩
        rw [tryCatchResolve_pokeballInv]
      | greatball =>
        dsimp only [tryConsume]
        by_cases hz : s.inventory.greatball ≤ 0
        · rw [if_pos (show (({ s with isProcessing := true } : GameState)).inventory.get Ball.greatball ≤ 0 from hz)]
          exact ⟨h, rfl⟩
        · rw [if_neg (show ¬ (({ s with isProcessing := true } : GameState)).inventory.get Ball.greatball ≤ 0 from hz)]
          constructor
          · apply tryCatchResolve_invNonneg
            exact decr_invNonneg _ _ h
          · rw [tryCatchResolve_pokeballInv]
            simp [saveInventory, Inventory.decr]
      | ultraball =>
        dsimp only [tryConsume]
        by_cases hz : s.inventory.ultraball ≤ 0
        · rw [if_pos (show (({ s with isProcessing := true } : GameState)).inventory.get Ball.ultraball ≤ 0 from hz)]
          exact ⟨h, rfl⟩
        · rw [if_neg (show ¬ (({ s with isProcessing := true } : GameState)).inventory.get Ball.ultraball ≤ 0 from hz)]
          constructor
          · apply tryCatchResolve_invNonneg
            exact decr_invNonneg _ _ h
          · rw [tryCatchResolve_pokeballInv]
            simp [saveInventory, Inventory.decr]

/-! ### Numeric evaluation lemmas for the fixtures -/

theorem draw_half_nonneg : (0 : ℚ) ≤ 1/2 := by norm_num

theorem draw_half_lt_one : (1/2 : ℚ) < 1 := by norm_num

theorem chance_greatball_fresh_pos :
    (0 : ℚ) < computeChance Ball.greatball encPlain [] := by
  norm_num [computeChance, jsMin, ballBonus, dexCaught, dexGet, encPlain]

theorem chance_pokeball_caught1_pos :
    (0 : ℚ) < computeChance Ball.pokeball encPlain gsCaught1.pokedex := by
  norm_num [computeChance, jsMin, ballBonus, dexCaught, dexGet, encPlain,
    gsCaught1, gs0, recCaught1]

theorem draw99_fails_pokeball_plain :
    ¬ ((99/100 : ℚ) < computeChance Ball.pokeball encPlain gs0.pokedex) := by
  norm_num [computeChance, jsMin, ballBonus, dexCaught, dexGet, encPlain, gs0]

/-- The state effects of a successful capture resolution: the counter bump on
a first capture, the every-10th and every-100th ball grants on top of the
consumed inventory, and the inventory persistence after the grants. -/
theorem tryCatch_success_effects (s : GameState) (e : Encounter) (ball : Ball)
    (draw : ℚ) (now : Nat)
    (hp : s.isProcessing = false) (he : s.currentEncounter = some e)
    (hb : ball = Ball.pokeball ∨ 0 < s.inventory.get ball)
    (hs : draw < computeChance ball e s.pokedex) :
    ((tryCatch ball draw now s).captureCounter
        = if dexCaught s.pokedex e.id then s.captureCounter else s.captureCounter + 1) ∧
    ((tryCatch ball draw now s).inventory.greatball
        = (if ball = Ball.pokeball then s.inventory else s.inventory.decr ball).greatball
          + (if dexCaught s.pokedex e.id = false ∧ (s.captureCounter + 1) % 10 = 0
             then 1 else 0)) ∧
    ((tryCatch ball draw now s).inventory.ultraball
        = (if ball = Ball.pokeball then s.inventory else s.inventory.decr ball).ultraball
          + (if dexCaught s.pokedex e.id = false ∧ (s.captureCounter + 1) % 100 = 0
             then 1 else 0)) ∧
    (dexCaught s.pokedex e.id = false →
        (tryCatch ball draw now s).storedInv
          = some ((tryCatch ball draw now s).inventory,
              (tryCatch ball draw now s).captureCounter)) := by
  have hce : (availConsume ball { s with isProcessing := true }).currentEncounter
      = some e := by
    rw [availConsume_currentEncounter]
    exact he
  rw [tryCatch_eq_resolve s e ball draw now hp he hb,
      tryCatchResolve_success draw _ now _ e hce hs]
  dsimp only
  rw [finalizeCapture_captureCounter, finalizeCapture_greatball,
      finalizeCapture_ultraball, finalizeCapture_storedInv,
      availConsume_pokedex, availConsume_captureCounter, availConsume_inventory]
  dsimp only
  refine ⟨rfl, ?_, ?_, ?_⟩
  · by_cases hP : dexCaught s.pokedex e.id = false ∧ (s.captureCounter + 1) % 10 = 0 <;>
      simp [hP]
  · by_cases hP : dexCaught s.pokedex e.id = false ∧ (s.captureCounter + 1) % 100 = 0 <;>
      simp [hP]
  · intro hdc
    simp [hdc]

/-! ### The claims -/

/-- Claim C1: for every active Encounter with `shiny = true` and
`is_legendary = true`, `tryCatch` computes success probability 1.0
(overriding the base/multiplier/penalty/clamp computation), and — with an
available ball — the capture succeeds for every uniform draw in `[0, 1)`. -/
theorem shiny_legendary_guaranteed_capture
    (s : GameState) (e : Encounter) (ball : Ball) (draw : ℚ) (now : Nat)
    (hp : s.isProcessing = false) (he : s.currentEncounter = some e)
    (hsh : e.shiny = true) (hleg : e.is_legendary = true)
    (hb : ball = Ball.pokeball ∨ 0 < s.inventory.get ball)
    (hd0 : 0 ≤ draw) (hd1 : draw < 1) :
    computeChance ball e s.pokedex = 1.0 ∧
      dexCaught (tryCatch ball draw now s).pokedex e.id = true := by
  have hch : computeChance ball e s.pokedex = 1.0 := by
    unfold computeChance
    rw [hsh, hleg]
    simp
  refine ⟨hch, ?_⟩
  have hce : (availConsume ball { s with isProcessing := true }).currentEncounter
      = some e := by
    rw [availConsume_currentEncounter]
    exact he
  have hlt : draw < computeChance ball e s.pokedex := by
    rw [hch]
    exact lt_of_lt_of_le hd1 (by norm_num)
  rw [tryCatch_eq_resolve s e ball draw now hp he hb,
      tryCatchResolve_success draw _ now _ e hce hlt]
  exact finalizeCapture_caught now e _

/-- Claim C1 witness: a shiny legendary encounter is captured at draw 1/2. -/
theorem shiny_legendary_guaranteed_capture_witness :
    (gsSL.isProcessing = false ∧ gsSL.currentEncounter = some encShinyLeg ∧
      encShinyLeg.shiny = true ∧ encShinyLeg.is_legendary = true ∧
      (0 : ℚ) ≤ 1/2 ∧ (1/2 : ℚ) < 1) ∧
    (computeChance Ball.pokeball encShinyLeg gsSL.pokedex = 1.0 ∧
      dexCaught (tryCatch Ball.pokeball (1/2) 123 gsSL).pokedex encShinyLeg.id = true) :=
  ⟨⟨rfl, rfl, rfl, rfl, draw_half_nonneg, draw_half_lt_one⟩,
    shiny_legendary_guaranteed_capture gsSL encShinyLeg Ball.pokeball (1/2) 123
      rfl rfl rfl rfl (Or.inl rfl) draw_half_nonneg draw_half_lt_one⟩

/-- Claim C2: for every encounter that is not both shiny and legendary, the
success probability is the base constant 0.35 times the per-ball multiplier
(pokeball 1.0, greatball 1.5, ultraball 2.2), plus the fixed penalty -0.1
when the creature is already marked caught, clamped to a maximum of 0.98. -/
theorem capture_chance_formula (e : Encounter) (dex : Dex)
    (h : ¬ (e.shiny = true ∧ e.is_legendary = true)) :
    (computeChance Ball.pokeball e dex
        = min 0.98 (0.35 * 1.0 + (if dexCaught dex e.id then -0.1 else 0))) ∧
    (computeChance Ball.greatball e dex
        = min 0.98 (0.35 * 1.5 + (if dexCaught dex e.id then -0.1 else 0))) ∧
    (computeChance Ball.ultraball e dex
        = min 0.98 (0.35 * 2.2 + (if dexCaught dex e.id then -0.1 else 0))) := by
  have hba : (e.shiny && e.is_legendary) = false := by
    cases hs : e.shiny <;> cases hl : e.is_legendary <;> simp_all
  refine ⟨?_, ?_, ?_⟩ <;> simp [computeChance, hba, jsMin_eq_min, ballBonus]

/-- Claim C2 witness: the formula at a fresh plain encounter. -/
theorem capture_chance_formula_witness :
    (¬ (encPlain.shiny = true ∧ encPlain.is_legendary = true)) ∧
    ((computeChance Ball.pokeball encPlain []
        = min 0.98 (0.35 * 1.0 + (if dexCaught [] encPlain.id then -0.1 else 0))) ∧
      (computeChance Ball.greatball encPlain []
        = min 0.98 (0.35 * 1.5 + (if dexCaught [] encPlain.id then -0.1 else 0))) ∧
      (computeChance Ball.ultraball encPlain []
        = min 0.98 (0.35 * 2.2 + (if dexCaught [] encPlain.id then -0.1 else 0)))) :=
  ⟨by decide, capture_chance_formula encPlain [] (by decide)⟩

/-- Claim C3: choosing a finite ball type with a zero (or smaller) count
aborts back to `Idle` with the out-of-items toast, and the whole state is
otherwise unchanged — in particular neither the inventory counts nor the
collection store are mutated. -/
theorem out_of_balls_aborts_without_mutation
    (s : GameState) (e : Encounter) (ball : Ball) (draw : ℚ) (now : Nat)
    (hp : s.isProcessing = false) (he : s.currentEncounter = some e)
    (hb : ball ≠ Ball.pokeball) (hz : s.inventory.get ball ≤ 0) :
    tryCatch ball draw now s = setToast s "Sem bolas desse tipo!" := by
  cases s with
  | mk pd inv cc ce ip sd si ts er =>
    dsimp at hp he hz
    subst hp
    subst he
    cases ball with
    | pokeball => exact absurd rfl hb
    | greatball => simp [tryCatch, tryConsume, hz, setToast]
    | ultraball => simp [tryCatch, tryConsume, hz, setToast]

/-- Claim C3 witness: a great-ball attempt with zero great balls. -/
theorem out_of_balls_aborts_without_mutation_witness :
    (gsNoGreat.isProcessing = false ∧ gsNoGreat.currentEncounter = some encPlain ∧
      Ball.greatball ≠ Ball.pokeball ∧ gsNoGreat.inventory.get Ball.greatball ≤ 0) ∧
    tryCatch Ball.greatball (1/2) 5 gsNoGreat = setToast gsNoGreat "Sem bolas desse tipo!" :=
  ⟨⟨rfl, rfl, by decide, by decide⟩,
    out_of_balls_aborts_without_mutation gsNoGreat encPlain Ball.greatball (1/2) 5
      rfl rfl (by decide) (by decide)⟩

/-- Claim C4: under every sequence of capture attempts and flees, the finite
item-type counts stay nonnegative and the unlimited-sentinel `pokeball`
count is never decremented (it is never touched at all). -/
theorem inventory_counts_never_negative (acts : List Action) (s : GameState)
    (h : invNonneg s.inventory) :
    invNonneg (runActions acts s).inventory ∧
      (runActions acts s).inventory.pokeball = s.inventory.pokeball := by
  induction acts generalizing s with
  | nil => exact ⟨h, rfl⟩
  | cons a rest ih =>
    cases a with
    | capture ball draw now =>
      obtain ⟨h1, h2⟩ := tryCatch_invNonneg ball draw now s h
      obtain ⟨h3, h4⟩ := ih (tryCatch ball draw now s) h1
      refine ⟨by simpa [runActions, step] using h3, ?_⟩
      calc (runActions (Action.capture ball draw now :: rest) s).inventory.pokeball
          = (runActions rest (tryCatch ball draw now s)).inventory.pokeball := rfl
        _ = (tryCatch ball draw now s).inventory.pokeball := h4
        _ = s.inventory.pokeball := h2
    | flee =>
      have h1 : invNonneg (runAway s).inventory := by
        rw [runAway_inventory]
        exact h
      obtain ⟨h3, h4⟩ := ih (runAway s) h1
      refine ⟨by simpa [runActions, step] using h3, ?_⟩
      calc (runActions (Action.flee :: rest) s).inventory.pokeball
          = (runActions rest (runAway s)).inventory.pokeball := rfl
        _ = (runAway s).inventory.pokeball := h4
        _ = s.inventory.pokeball := by rw [runAway_inventory]

/-- Claim C4 witness: a concrete action sequence from the starting state. -/
theorem inventory_counts_never_negative_witness :
    invNonneg gs0.inventory ∧
      (invNonneg (runActions actsW gs0).inventory ∧
        (runActions actsW gs0).inventory.pokeball = gs0.inventory.pokeball) :=
  ⟨⟨by decide, by decide⟩,
    inventory_counts_never_negative actsW gs0 ⟨by decide, by decide⟩⟩

/-- Claim C5: a successful capture sets `capturedAt` only when it was unset
(then to the current time); once set, no later capture attempt — of the same
id or any other — ever changes it. -/
theorem capturedAt_set_once
    (s : GameState) (e : Encounter) (ball : Ball) (draw : ℚ) (now : Nat)
    (hp : s.isProcessing = false) (he : s.currentEncounter = some e)
    (hb : ball = Ball.pokeball ∨ 0 < s.inventory.get ball)
    (hs : draw < computeChance ball e s.pokedex) :
    (∀ id t, Option.bind (dexGet s.pokedex id) (fun r => r.capturedAt) = some t →
        Option.bind (dexGet (tryCatch ball draw now s).pokedex id)
          (fun r => r.capturedAt) = some t) ∧
    (Option.bind (dexGet s.pokedex e.id) (fun r => r.capturedAt) = none →
        Option.bind (dexGet (tryCatch ball draw now s).pokedex e.id)
          (fun r => r.capturedAt) = some now) := by
  have hce : (availConsume ball { s with isProcessing := true }).currentEncounter
      = some e := by
    rw [availConsume_currentEncounter]
    exact he
  rw [tryCatch_eq_resolve s e ball draw now hp he hb,
      tryCatchResolve_success draw _ now _ e hce hs]
  dsimp only
  constructor
  · intro id t ht
    by_cases hid : id = e.id
    · subst hid
      have hcap := finalizeCapture_capturedAt now e
        (availConsume ball { s with isProcessing := true })
      rw [availConsume_pokedex] at hcap
      dsimp only at hcap
      rw [hcap, ht]
      rfl
    · have hne := finalizeCapture_pokedex_ne now e
        (availConsume ball { s with isProcessing := true }) id hid
      rw [availConsume_pokedex] at hne
      dsimp only at hne
      rw [hne]
      exact ht
  · intro hnone
    have hcap := finalizeCapture_capturedAt now e
      (availConsume ball { s with isProcessing := true })
    rw [availConsume_pokedex] at hcap
    dsimp only at hcap
    rw [hcap, hnone]
    rfl

/-- Claim C5 witness: recapturing id 1 keeps its original timestamp 111. -/
theorem capturedAt_set_once_witness :
    Option.bind (dexGet gsCaught1.pokedex 1) (fun r => r.capturedAt) = some 111 ∧
    Option.bind (dexGet (tryCatch Ball.pokeball 0 222 gsCaught1).pokedex 1)
      (fun r => r.capturedAt) = some 111 :=
  ⟨rfl,
    (capturedAt_set_once gsCaught1 encPlain Ball.pokeball 0 222
      rfl rfl (Or.inl rfl) chance_pokeball_caught1_pos).1 1 111 rfl⟩

/-- Claim C6: on a successful capture, `captureCounter` is incremented only
on a first-ever capture; on top of the consumed inventory, the great-ball
count grows by exactly 1 exactly when the new total is a multiple of 10 and
the ultra-ball count by exactly 1 exactly when it is a multiple of 100; and
after a first capture the inventory store is persisted with the post-grant
counts. -/
theorem first_capture_bonus_cadence (s : GameState) (e : Encounter) (ball : Ball)
    (draw : ℚ) (now : Nat)
    (hp : s.isProcessing = false) (he : s.currentEncounter = some e)
    (hb : ball = Ball.pokeball ∨ 0 < s.inventory.get ball)
    (hs : draw < computeChance ball e s.pokedex) :
    ((tryCatch ball draw now s).captureCounter
        = if dexCaught s.pokedex e.id then s.captureCounter else s.captureCounter + 1) ∧
    ((tryCatch ball draw now s).inventory.greatball
        = (if ball = Ball.pokeball then s.inventory else s.inventory.decr ball).greatball
          + (if dexCaught s.pokedex e.id = false ∧ (s.captureCounter + 1) % 10 = 0
             then 1 else 0)) ∧
    ((tryCatch ball draw now s).inventory.ultraball
        = (if ball = Ball.pokeball then s.inventory else s.inventory.decr ball).ultraball
          + (if dexCaught s.pokedex e.id = false ∧ (s.captureCounter + 1) % 100 = 0
             then 1 else 0)) ∧
    (dexCaught s.pokedex e.id = false →
        (tryCatch ball draw now s).storedInv
          = some ((tryCatch ball draw now s).inventory,
              (tryCatch ball draw now s).captureCounter)) :=
  tryCatch_success_effects s e ball draw now hp he hb hs

/-- Claim C6 witness: the 10th first-capture grants one great ball. -/
theorem first_capture_bonus_cadence_witness :
    (gs9.isProcessing = false ∧ gs9.currentEncounter = some encPlain ∧
      (0 : ℚ) < computeChance Ball.greatball encPlain gs9.pokedex) ∧
    (((tryCatch Ball.greatball 0 7 gs9).captureCounter
        = if dexCaught gs9.pokedex encPlain.id then gs9.captureCounter
          else gs9.captureCounter + 1) ∧
      ((tryCatch Ball.greatball 0 7 gs9).inventory.greatball
        = (if Ball.greatball = Ball.pokeball then gs9.inventory
           else gs9.inventory.decr Ball.greatball).greatball
          + (if dexCaught gs9.pokedex encPlain.id = false ∧ (gs9.captureCounter + 1) % 10 = 0
             then 1 else 0)) ∧
      ((tryCatch Ball.greatball 0 7 gs9).inventory.ultraball
        = (if Ball.greatball = Ball.pokeball then gs9.inventory
           else gs9.inventory.decr Ball.greatball).ultraball
          + (if dexCaught gs9.pokedex encPlain.id = false ∧ (gs9.captureCounter + 1) % 100 = 0
             then 1 else 0)) ∧
      (dexCaught gs9.pokedex encPlain.id = false →
        (tryCatch Ball.greatball 0 7 gs9).storedInv
          = some ((tryCatch Ball.greatball 0 7 gs9).inventory,
              (tryCatch Ball.greatball 0 7 gs9).captureCounter))) :=
  ⟨⟨rfl, rfl, chance_greatball_fresh_pos⟩,
    first_capture_bonus_cadence gs9 encPlain Ball.greatball 0 7
      rfl rfl (Or.inr (by decide)) chance_greatball_fresh_pos⟩

/-- Claim C7: while a resolution is in flight (`isProcessing = true`), both
`tryCatch` and `runAway` are exact no-ops: the whole state — stores,
encounter, everything — is unchanged. -/
theorem resolving_actions_are_noops (s : GameState) (ball : Ball) (draw : ℚ)
    (now : Nat) (hp : s.isProcessing = true) :
    tryCatch ball draw now s = s ∧ runAway s = s :=
  ⟨tryCatch_noop_of_processing ball draw now s hp,
    runAway_noop_of_processing s hp⟩

/-- Claim C7 witness: both actions are no-ops on a busy state. -/
theorem resolving_actions_are_noops_witness :
    gsBusy.isProcessing = true ∧
      (tryCatch Ball.pokeball 0 3 gsBusy = gsBusy ∧ runAway gsBusy = gsBusy) :=
  ⟨rfl, resolving_actions_are_noops gsBusy Ball.pokeball 0 3 rfl⟩

/-- Claim C8: when the draw fails (`draw` not below the computed chance), the
resolution mutates neither the collection store (`pokedex`, `storedDex`) nor
the inventory beyond the pre-draw ball consumption, clears the active
Encounter, returns to `Idle`, and chains exactly one new encounter request. -/
theorem failed_capture_outcome
    (s : GameState) (e : Encounter) (ball : Ball) (draw : ℚ) (now : Nat)
    (hp : s.isProcessing = false) (he : s.currentEncounter = some e)
    (hb : ball = Ball.pokeball ∨ 0 < s.inventory.get ball)
    (hf : ¬ draw < computeChance ball e s.pokedex) :
    tryCatch ball draw now s =
      { s with
        inventory := if ball = Ball.pokeball then s.inventory else s.inventory.decr ball,
        storedInv := if ball = Ball.pokeball then s.storedInv
          else some (s.inventory.decr ball, s.captureCounter),
        toasts := s.toasts ++ [escapeMsg e],
        currentEncounter := none,
        encounterRequests := s.encounterRequests + 1 } := by
  cases s with
  | mk pd inv cc ce ip sd si ts er =>
    dsimp at hp he hb hf ⊢
    subst hp
    subst he
    rw [tryCatch_eq_resolve _ e ball draw now rfl rfl hb,
        tryCatchResolve_failure draw _ now _ e (by rw [availConsume_currentEncounter]) hf]
    cases ball with
    | pokeball => simp [availConsume]
    | greatball => simp [availConsume, saveInventory]
    | ultraball => simp [availConsume, saveInventory]

/-- Claim C8 witness: a 0.99 draw on a plain encounter with the default ball. -/
theorem failed_capture_outcome_witness :
    (gs0.isProcessing = false ∧ gs0.currentEncounter = some encPlain ∧
      ¬ ((99/100 : ℚ) < computeChance Ball.pokeball encPlain gs0.pokedex)) ∧
    tryCatch Ball.pokeball (99/100) 3 gs0 =
      { gs0 with
        inventory := if Ball.pokeball = Ball.pokeball then gs0.inventory
          else gs0.inventory.decr Ball.pokeball,
        storedInv := if Ball.pokeball = Ball.pokeball then gs0.storedInv
          else some (gs0.inventory.decr Ball.pokeball, gs0.captureCounter),
        toasts := gs0.toasts ++ [escapeMsg encPlain],
        currentEncounter := none,
        encounterRequests := gs0.encounterRequests + 1 } :=
  ⟨⟨rfl, rfl, draw99_fails_pokeball_plain⟩,
    failed_capture_outcome gs0 encPlain Ball.pokeball (99/100) 3
      rfl rfl (Or.inl rfl) draw99_fails_pokeball_plain⟩

/-- Claim C9: malformed import input — input on which `JSON.parse` fails —
is rejected with the user-visible notice and leaves the collection store
(both the in-memory value and the persisted snapshot) unchanged. -/
theorem malformed_import_rejected (s : ImportEnv) :
    (importPokedex none s).pokedexJson = s.pokedexJson ∧
    (importPokedex none s).storedJson = s.storedJson ∧
    (importPokedex none s).toasts = s.toasts ++ ["Arquivo inválido"] := by
  unfold importPokedex
  exact ⟨rfl, rfl, rfl⟩

/-- Claim C10: when a first-ever capture makes the total a multiple of 100,
both bonuses fire in the same resolution — the great-ball and the ultra-ball
counts each grow by exactly 1 on top of the consumed inventory, since the
every-10th and every-100th conditions are tested independently. -/
theorem century_capture_double_bonus
    (s : GameState) (e : Encounter) (ball : Ball) (draw : ℚ) (now : Nat)
    (hp : s.isProcessing = false) (he : s.currentEncounter = some e)
    (hb : ball = Ball.pokeball ∨ 0 < s.inventory.get ball)
    (hs : draw < computeChance ball e s.pokedex)
    (hfirst : dexCaught s.pokedex e.id = false)
    (hc : (s.captureCounter + 1) % 100 = 0) :
    ((tryCatch ball draw now s).inventory.greatball
        = (if ball = Ball.pokeball then s.inventory
           else s.inventory.decr ball).greatball + 1) ∧
    ((tryCatch ball draw now s).inventory.ultraball
        = (if ball = Ball.pokeball then s.inventory
           else s.inventory.decr ball).ultraball + 1) := by
  have h10 : (s.captureCounter + 1) % 10 = 0 := by omega
  obtain ⟨-, hg, hu, -⟩ := tryCatch_success_effects s e ball draw now hp he hb hs
  constructor
  · rw [hg]
    simp [hfirst, h10]
  · rw [hu]
    simp [hfirst, hc]

/-- Claim C10 witness: the 100th first-capture grants both balls at once. -/
theorem century_capture_double_bonus_witness :
    (gs99.isProcessing = false ∧ gs99.currentEncounter = some encPlain ∧
      dexCaught gs99.pokedex encPlain.id = false ∧
      (gs99.captureCounter + 1) % 100 = 0) ∧
    (((tryCatch Ball.greatball 0 11 gs99).inventory.greatball
        = (if Ball.greatball = Ball.pokeball then gs99.inventory
           else gs99.inventory.decr Ball.greatball).greatball + 1) ∧
      ((tryCatch Ball.greatball 0 11 gs99).inventory.ultraball
        = (if Ball.greatball = Ball.pokeball then gs99.inventory
           else gs99.inventory.decr Ball.greatball).ultraball + 1)) :=
  ⟨⟨rfl, rfl, by decide, by decide⟩,
    century_capture_double_bonus gs99 encPlain Ball.greatball 0 11
      rfl rfl (Or.inr (by decide)) chance_greatball_fresh_pos (by decide) (by decide)⟩

end RNG
